import Mathlib

/-!
Verification development for the IPL ball-by-ball statistics dashboard
(`src/app.py`).  The delivery table is shallowly embedded as a list of
records; the page-level aggregations (`analyze_batsman`, `analyze_bowler`,
the head-to-head team metrics, phase splits, season derivation and the
load-time team-name normalization) are translated from the source into
executable Lean definitions, and the specified properties are settled
against them.  Python float arithmetic is modelled with exact rationals
(`ℚ`), and `float('inf')` with `⊤ : WithTop ℚ`.
-/

namespace IPL

/-- One row of the ball-by-ball delivery table (`deliveries.csv`), with the
columns the analysed code reads.  `is_wicket` is the 0/1 flag the source
sums with `.sum()`. -/
structure Delivery where
  match_id : String
  over : Int
  batter : String
  bowler : String
  batting_team : String
  bowling_team : String
  batsman_runs : Int
  total_runs : Int
  is_wicket : Nat
deriving Repr, DecidableEq

/-- The team-name replacement map applied by `load_data`
(`df['batting_team'].replace(team_mapping)`, src/app.py lines 80-86):
a dict lookup that maps matching values and passes every other value
through unchanged. -/
def applyTeamMapping (s : String) : String :=
  if s = "Rising Pune Supergiants" then "Rising Pune Supergiant"
  else if s = "Royal Challengers Bangalore" then "Royal Challengers Bengaluru"
  else if s = "Royal Challengers Bengaluru" then "Royal Challengers Bengaluru"
  else s

/-- `load_data`'s normalization step on the typed table: applies the team
mapping to the `batting_team` and `bowling_team` columns of every row. -/
def normalizeTeams (df : List Delivery) : List Delivery :=
  df.map (fun d =>
    { d with
      batting_team := applyTeamMapping d.batting_team,
      bowling_team := applyTeamMapping d.bowling_team })

/-- Maximum of a list of naturals, `none` on the empty list
(pandas `.max()` of an empty group is NaN). -/
def natMax? (l : List Nat) : Option Nat :=
  l.foldl (fun acc x =>
    match acc with
    | none => some x
    | some m => some (max m x)) none

/-- Minimum of a list of integers, `none` on the empty list. -/
def intMin? (l : List Int) : Option Int :=
  l.foldl (fun acc x =>
    match acc with
    | none => some x
    | some m => some (min m x)) none

/-- Maximum of a list of integers, `none` on the empty list. -/
def intMax? (l : List Int) : Option Int :=
  l.foldl (fun acc x =>
    match acc with
    | none => some x
    | some m => some (max m x)) none

/-- The distinct `match_id` keys of a row subset (pandas
`groupby('match_id')` group keys; key order is irrelevant to every use,
which only sums, counts, maximizes or minimizes over the groups). -/
def matchKeys (pdf : List Delivery) : List String :=
  (pdf.map (·.match_id)).dedup

/-- Per-`match_id` sums of an integer column over a row subset
(`pdf.groupby('match_id')[col].sum()`). -/
def perMatchSum (pdf : List Delivery) (f : Delivery → Int) : List Int :=
  (matchKeys pdf).map (fun m =>
    ((pdf.filter (·.match_id == m)).map f).sum)

/-- Per-`match_id` sums of the `is_wicket` column over a row subset. -/
def perMatchWickets (pdf : List Delivery) : List Nat :=
  (matchKeys pdf).map (fun m =>
    ((pdf.filter (·.match_id == m)).map (·.is_wicket)).sum)

/-- Result record of `analyze_batsman` (src/app.py lines 345-369). -/
structure BatsmanStats where
  total_runs : Int
  strike_rate : ℚ
  average : ℚ
  highest_score : Option Int
  fifties : Nat
  centuries : Nat
  sixes : Nat
  fours : Nat
  balls_faced : Nat
deriving Repr, DecidableEq

/-- `analyze_batsman(df, player)` (src/app.py lines 345-369): filters the
table to the player's rows as batter and computes totals, strike rate, the
dismissal-count average (total runs when dismissals is zero), per-match
milestone counts (fifties: per-match run sum ≥ 50; centuries: ≥ 100),
boundary counts and balls faced. -/
def analyze_batsman (df : List Delivery) (player : String) : BatsmanStats :=
  let pdf := df.filter (·.batter == player)
  let total_runs : Int := (pdf.map (·.batsman_runs)).sum
  let total_balls : Nat := pdf.length
  let dismissals : Nat := (pdf.map (·.is_wicket)).sum
  let perMatch : List Int := perMatchSum pdf (·.batsman_runs)
  { total_runs := total_runs
    strike_rate := if 0 < total_balls then (total_runs : ℚ) / (total_balls : ℚ) * 100 else 0
    average := if 0 < dismissals then (total_runs : ℚ) / (dismissals : ℚ) else (total_runs : ℚ)
    highest_score := intMax? perMatch
    fifties := (perMatch.filter (fun s => 50 ≤ s)).length
    centuries := (perMatch.filter (fun s => 100 ≤ s)).length
    sixes := (pdf.filter (·.batsman_runs == 6)).length
    fours := (pdf.filter (·.batsman_runs == 4)).length
    balls_faced := total_balls }

/-- Result record of `analyze_bowler` (src/app.py lines 371-389).
`average` is `WithTop ℚ`, with `⊤` standing for Python's `float('inf')`;
`best_bowling` is the pair the source formats as
`f"{...max()}/{...min()}"`. -/
structure BowlerStats where
  wickets : Nat
  economy : ℚ
  average : WithTop ℚ
  best_bowling : Option (Nat × Int)
  three_wicket_hauls : Nat
  overs_bowled : ℚ
  runs_conceded : Int
deriving Repr, DecidableEq

/-- `analyze_bowler(df, player)` (src/app.py lines 371-389): filters the
table to the player's rows as bowler; economy is runs over overs (or 0
with no balls), average is runs over wickets (or infinity with no
wickets), and `best_bowling` pairs the maximum per-match wicket sum with
the minimum per-match runs sum — each extremum taken independently over
the per-match groups, exactly as the source's `f"{max}/{min}"` does. -/
def analyze_bowler (df : List Delivery) (player : String) : BowlerStats :=
  let pdf := df.filter (·.bowler == player)
  let wickets : Nat := (pdf.map (·.is_wicket)).sum
  let runs : Int := (pdf.map (·.total_runs)).sum
  let balls : Nat := pdf.length
  let overs : ℚ := (balls : ℚ) / 6
  let wktsPerMatch := perMatchWickets pdf
  let runsPerMatch := perMatchSum pdf (·.total_runs)
  { wickets := wickets
    economy := if 0 < overs then (runs : ℚ) / overs else 0
    average := if 0 < wickets then ((((runs : ℚ) / (wickets : ℚ)) : ℚ) : WithTop ℚ) else ⊤
    best_bowling :=
      match natMax? wktsPerMatch, intMin? runsPerMatch with
      | some w, some r => some (w, r)
      | _, _ => none
    three_wicket_hauls := (wktsPerMatch.filter (fun w => 3 ≤ w)).length
    overs_bowled := overs
    runs_conceded := runs }

/-- The bowler page of `player_analysis_page` (src/app.py lines 513-518):
economy for the selected bowler, runs conceded over overs bowled. -/
def playerPageBowlerEconomy (df : List Delivery) (player : String) : ℚ :=
  let pdf := df.filter (·.bowler == player)
  let runs : Int := (pdf.map (·.total_runs)).sum
  let overs : ℚ := (pdf.length : ℚ) / 6
  if 0 < overs then (runs : ℚ) / overs else 0

/-- The ball-by-ball rows of matches between the two selected teams
(`team_vs_team`, src/app.py lines 107-110). -/
def teamVsTeam (df : List Delivery) (t1 t2 : String) : List Delivery :=
  df.filter (fun d =>
    (d.batting_team == t1 && d.bowling_team == t2) ||
    (d.batting_team == t2 && d.bowling_team == t1))

/-- A team's batting rows within the head-to-head subset
(`team1_stats` / `team2_stats`, src/app.py lines 113-114). -/
def battingStats (df : List Delivery) (t1 t2 t : String) : List Delivery :=
  (teamVsTeam df t1 t2).filter (·.batting_team == t)

/-- The head-to-head "Economy Rate" metric for team `t1`
(src/app.py line 123: `team1_economy = team1_runs / team1_overs`):
computed from `t1`'s own batting rows — its runs scored over the overs it
faced. -/
def headToHeadEconomy (df : List Delivery) (t1 t2 : String) : ℚ :=
  let s := battingStats df t1 t2 t1
  let runs : Int := (s.map (·.total_runs)).sum
  let overs : ℚ := (s.length : ℚ) / 6
  if 0 < overs then (runs : ℚ) / overs else 0

/-- The head-to-head "Overs Bowled" metric for team `t1`
(src/app.py line 122: the opponent's ball count divided by 6). -/
def headToHeadOversBowled (df : List Delivery) (t1 t2 : String) : ℚ :=
  ((battingStats df t1 t2 t2).length : ℚ) / 6

/-- The economy rate the specification prescribes for a team's
head-to-head figures: the runs it conceded while bowling divided by the
overs it bowled, 0 when it bowled no balls.  Stated from the spec's words
for comparison with `headToHeadEconomy`. -/
def specTeamEconomy (df : List Delivery) (t1 t2 : String) : ℚ :=
  let s := (teamVsTeam df t1 t2).filter (·.bowling_team == t1)
  let runs : Int := (s.map (·.total_runs)).sum
  let overs : ℚ := (s.length : ℚ) / 6
  if 0 < overs then (runs : ℚ) / overs else 0

/-- `get_phase_stats`' "economy" component (src/app.py lines 184-192):
restricted to a phase's over range, the runs in the given team-batting
rows over the overs those rows span. -/
def phaseEconomy (teamData : List Delivery) (phaseStart phaseEnd : Int) : ℚ :=
  let pdf := teamData.filter (fun d => phaseStart ≤ d.over && d.over ≤ phaseEnd)
  let runs : Int := (pdf.map (·.total_runs)).sum
  let overs : ℚ := (pdf.length : ℚ) / 6
  if 0 < overs then (runs : ℚ) / overs else 0

/-- The per-match bowling figures (wickets, runs conceded) of a bowler,
one pair per match group, stated from the spec's words: the pool from
which a single-match "best bowling" figure is to be selected. -/
def perMatchFigures (df : List Delivery) (player : String) : List (Nat × Int) :=
  let pdf := df.filter (·.bowler == player)
  (matchKeys pdf).map (fun m =>
    (((pdf.filter (·.match_id == m)).map (·.is_wicket)).sum,
     ((pdf.filter (·.match_id == m)).map (·.total_runs)).sum))

/-- The specification's best-bowling selection: rank per-match figures
with primary key wickets descending and secondary key runs ascending, and
report the figures of the single top-ranked match.  Stated from the
spec's words for comparison with `analyze_bowler`'s `best_bowling`. -/
def specBestBowling (df : List Delivery) (player : String) : Option (Nat × Int) :=
  (perMatchFigures df player).foldl (fun acc fig =>
    match acc with
    | none => some fig
    | some b =>
        if b.1 < fig.1 || (fig.1 == b.1 && fig.2 < b.2) then some fig else some b)
    none

/-- Decimal-digit test on a character. -/
def isDigitChar (c : Char) : Bool :=
  48 ≤ c.toNat && c.toNat ≤ 57

/-- Folds a digit sequence into a number; `none` on the first
non-digit character (a parse failure). -/
def digitsToNat (acc : Nat) : List Char → Option Nat
  | [] => some acc
  | c :: cs =>
      if isDigitChar c then digitsToNat (acc * 10 + (c.toNat - 48)) cs
      else none

/-- Python's `int(s)` on a character sequence: an optional minus sign
followed by one or more decimal digits; anything else fails. -/
def parseIntStr : List Char → Option Int
  | [] => none
  | c :: cs =>
      if c = '-' then
        match cs with
        | [] => none
        | _ => (digitsToNat 0 cs).map (fun n => -(n : Int))
      else (digitsToNat 0 (c :: cs)).map (fun n => (n : Int))

/-- Season derivation applied to one `match_id`
(`df['match_id'].astype(str).str[:4].astype(int)`, src/app.py lines 655
and 846): take the first four characters and parse them as an integer;
`none` models the `ValueError` that `astype(int)` raises on an
unparseable prefix. -/
def seasonOfMatchId (s : String) : Option Int :=
  parseIntStr (s.data.take 4)

/-- The whole-column season derivation of `tournament_stats_page` /
`team_analysis_page`: succeeds with a season for every row, or fails for
the whole table (`astype(int)` raises) as soon as any row's `match_id`
prefix is unparseable. -/
def addSeason : List Delivery → Option (List (Delivery × Int))
  | [] => some []
  | d :: ds =>
      match seasonOfMatchId d.match_id, addSeason ds with
      | some y, some rest => some ((d, y) :: rest)
      | _, _ => none

/-- The raw CSV table as loaded, before any typed access: the column
names present in the file plus the rows as association lists from column
name to cell text.  Models pandas' string-keyed frame, where touching an
absent column raises `KeyError`. -/
structure RawTable where
  cols : List String
  rows : List (List (String × String))
deriving Repr, DecidableEq

/-- Applies the team mapping to one named column of a raw row. -/
def replaceColInRow (c : String) (row : List (String × String)) : List (String × String) :=
  row.map (fun kv => if kv.1 = c then (kv.1, applyTeamMapping kv.2) else kv)

/-- `load_data` (src/app.py lines 72-90): reads the table and replaces
team names in the `batting_team` and `bowling_team` columns; those are
the only columns it touches, so the guarded `try/except` (which catches
any exception and returns `None`) makes the load fail exactly when one of
those two columns is absent.  No other column is validated. -/
def load_data (t : RawTable) : Option RawTable :=
  if "batting_team" ∈ t.cols ∧ "bowling_team" ∈ t.cols then
    some { cols := t.cols,
           rows := t.rows.map (fun r =>
             replaceColInRow "bowling_team" (replaceColInRow "batting_team" r)) }
  else none

/-- Column selection `df[c]` on the raw table: `none` models the
`KeyError` raised at query time when the column is absent. -/
def getColumn (t : RawTable) (c : String) : Option (List (Option String)) :=
  if c ∈ t.cols then some (t.rows.map (fun r => r.lookup c)) else none

/-- Modelled from the spec: the milestone-detection stage (§4.3
`detect_milestones`) has no implementation in `src/app.py` (the only
source file; `analyze_batsman` counts fifties but computes no
balls-to-threshold), so it is modelled from the spec's words here —
the 1-based position at which the running cumulative sum of
`batsman_runs`, taken in row order, first reaches or exceeds the
threshold; `none` when it never does. -/
def ballsToThresholdAux (threshold acc : Int) (n : Nat) : List Int → Option Nat
  | [] => none
  | r :: rs =>
      if threshold ≤ acc + r then some (n + 1)
      else ballsToThresholdAux threshold (acc + r) (n + 1) rs

/-- Modelled from the spec: entry point of the cumulative-sum scan over
one ordered innings. -/
def ballsToThreshold (runs : List Int) (threshold : Int) : Option Nat :=
  ballsToThresholdAux threshold 0 0 runs

/-- A milestone record as §4.3 specifies:
(player, match, balls to threshold, final score, opponent). -/
structure Milestone where
  player : String
  match_id : String
  balls_to_threshold : Nat
  final_score : Int
  opponent : String
deriving Repr, DecidableEq

/-- Modelled from the spec: `detect_milestones(rows, threshold)` (§4.3).
For each distinct (`match_id`, `batter`) pair, restrict to that pair in
original row order, scan the cumulative sum of `batsman_runs`, and emit a
record only when the threshold is reached; `final_score` is the innings
total.  The `opponent` field must be the innings' single `bowling_team`
value: §4.3 requires the rows of one innings to agree on it, and a
disagreement is a data-integrity fault that is flagged — per §7's
`DataIntegrityWarning` policy the offending innings is excluded from the
derived output (never resolved by taking the first row's value) — so a
record is emitted only when the innings has exactly one distinct
`bowling_team`. -/
def detect_milestones (df : List Delivery) (threshold : Int) : List Milestone :=
  let pairs := (df.map (fun d => (d.match_id, d.batter))).dedup
  pairs.filterMap (fun p =>
    let rows := df.filter (fun d => d.match_id == p.1 && d.batter == p.2)
    let runs := rows.map (·.batsman_runs)
    match ballsToThreshold runs threshold, (rows.map (·.bowling_team)).dedup with
    | some k, [opp] =>
        some { player := p.2, match_id := p.1, balls_to_threshold := k,
               final_score := runs.sum, opponent := opp }
    | _, _ => none)

/-- The rows of the table in which the given player is the batter — the
row set over which `analyze_batsman`'s figures are defined. -/
def batterRows (df : List Delivery) (p : String) : List Delivery :=
  df.filter (·.batter == p)

/-! ## Example tables used to settle the concrete claims -/

/-- Head-to-head example: in one match, team `A` bats 6 balls scoring 2
per ball (12 runs) and team `B` bats 6 balls scoring 1 per ball
(6 runs). -/
def headToHeadExample : List Delivery :=
  (List.range 6).map (fun i =>
    { match_id := "m1", over := (i : Int) + 1, batter := "a", bowler := "b",
      batting_team := "A", bowling_team := "B", batsman_runs := 2,
      total_runs := 2, is_wicket := 0 }) ++
  (List.range 6).map (fun i =>
    { match_id := "m1", over := (i : Int) + 1, batter := "b", bowler := "a",
      batting_team := "B", bowling_team := "A", batsman_runs := 1,
      total_runs := 1, is_wicket := 0 })

/-- Best-bowling example: bowler `P` takes 1 wicket for 20 runs in match
`m1` and 0 wickets for 3 runs in match `m2`. -/
def bestBowlingExample : List Delivery :=
  [ { match_id := "m1", over := 1, batter := "x", bowler := "P",
      batting_team := "A", bowling_team := "B", batsman_runs := 20,
      total_runs := 20, is_wicket := 1 },
    { match_id := "m2", over := 1, batter := "x", bowler := "P",
      batting_team := "A", bowling_team := "B", batsman_runs := 3,
      total_runs := 3, is_wicket := 0 } ]

/-- A raw table whose columns include the two team columns but not the
required `batter` column. -/
def missingBatterTable : RawTable :=
  { cols := ["match_id", "batting_team", "bowling_team", "total_runs"],
    rows := [] }

/-- A table with one row whose `match_id` has no parseable year in its
leading characters. -/
def badSeasonExample : List Delivery :=
  [ { match_id := "year", over := 1, batter := "x", bowler := "y",
      batting_team := "A", bowling_team := "B", batsman_runs := 0,
      total_runs := 0, is_wicket := 0 } ]

/-- Milestone example: batter `B1` faces thirteen balls, all fours
(52 runs), in match `m1` against `X`; batter `B2` faces three balls for
one run each and never reaches fifty. -/
def milestoneExample : List Delivery :=
  (List.range 13).map (fun i =>
    { match_id := "m1", over := (i : Int) / 6 + 1, batter := "B1", bowler := "q",
      batting_team := "T", bowling_team := "X", batsman_runs := 4,
      total_runs := 4, is_wicket := 0 }) ++
  (List.range 3).map (fun i =>
    { match_id := "m1", over := (i : Int) + 1, batter := "B2", bowler := "q",
      batting_team := "T", bowling_team := "X", batsman_runs := 1,
      total_runs := 1, is_wicket := 0 })

/-- A one-row table in which bowler `Q` bowls a single ball with no
wicket. -/
def noWicketExample : List Delivery :=
  [ { match_id := "m1", over := 1, batter := "x", bowler := "Q",
      batting_team := "A", bowling_team := "B", batsman_runs := 1,
      total_runs := 1, is_wicket := 0 } ]

/-! ## Helper lemmas -/

/-- Applying the team mapping twice is the same as applying it once:
every value the mapping produces is itself a fixed point of the
mapping. -/
theorem applyTeamMapping_idem (s : String) :
    applyTeamMapping (applyTeamMapping s) = applyTeamMapping s := by
  unfold applyTeamMapping
  split_ifs <;> simp_all

/-- A filter with a stronger predicate keeps at most as many elements as
a filter with a weaker one. -/
theorem length_filter_imp {α : Type} (p q : α → Bool) (l : List α)
    (h : ∀ a, p a = true → q a = true) :
    (l.filter p).length ≤ (l.filter q).length := by
  rw [← List.countP_eq_length_filter, ← List.countP_eq_length_filter]
  exact List.countP_mono_left (fun a _ ha => h a ha)

/-! ## Claims -/

/-- Claim C1: the claim states that every bowling-side "economy rate" —
including a team's head-to-head figures and the per-phase figures —
equals the runs conceded by that team divided by the overs it bowled.
The code violates this: the head-to-head `team1_economy`
(src/app.py line 123) and the phase-wise economy (line 191) divide the
team's own batting runs by the overs it faced (the same expression as
its run rate).  On `headToHeadExample`, team `A` conceded 6 runs in 1
over bowled, so the specified economy is 6, but the reported economy is
12 — as is the reported Powerplay-phase economy. -/
theorem economy_head_to_head_divergence :
    headToHeadEconomy headToHeadExample "A" "B" = 12 ∧
    specTeamEconomy headToHeadExample "A" "B" = 6 ∧
    phaseEconomy (battingStats headToHeadExample "A" "B" "A") 1 6 = 12 ∧
    headToHeadEconomy headToHeadExample "A" "B" ≠
      specTeamEconomy headToHeadExample "A" "B" := by
  have h1 : ((battingStats headToHeadExample "A" "B" "A").map (·.total_runs)).sum = 12 := by
    decide
  have h2 : (battingStats headToHeadExample "A" "B" "A").length = 6 := by decide
  have h3 : (((teamVsTeam headToHeadExample "A" "B").filter
      (·.bowling_team == "A")).map (·.total_runs)).sum = 6 := by decide
  have h4 : ((teamVsTeam headToHeadExample "A" "B").filter
      (·.bowling_team == "A")).length = 6 := by decide
  have h5 : (((battingStats headToHeadExample "A" "B" "A").filter
      (fun d => 1 ≤ d.over && d.over ≤ 6)).map (·.total_runs)).sum = 12 := by decide
  have h6 : ((battingStats headToHeadExample "A" "B" "A").filter
      (fun d => 1 ≤ d.over && d.over ≤ 6)).length = 6 := by decide
  simp only [headToHeadEconomy, specTeamEconomy, phaseEconomy]
  rw [h1, h2, h3, h4, h5, h6]
  norm_num

/-- Claim C2: the claim states that the reported best bowling figure is
the (wickets, runs) pair of one single match, the top of the two-key
ranking (wickets descending, runs ascending).  The code violates this:
`analyze_bowler` (src/app.py line 385) pairs the maximum per-match
wicket count with the minimum per-match runs count, taken independently.
On `bestBowlingExample` (1/20 in one match, 0/3 in another) the code
reports 1/3 — a figure achieved in no match — while the specified
single-match best is 1/20. -/
theorem best_bowling_mixes_matches :
    (analyze_bowler bestBowlingExample "P").best_bowling = some (1, 3) ∧
    specBestBowling bestBowlingExample "P" = some (1, 20) ∧
    (1, 3) ∉ perMatchFigures bestBowlingExample "P" := by
  refine ⟨by decide, by decide, by decide⟩

/-- Claim C3, counterexample: a table lacking the required `batter`
column loads successfully (no fail-fast `SchemaError`), and the missing
column only surfaces when it is first selected at query time. -/
theorem load_succeeds_without_batter_column :
    (load_data missingBatterTable).isSome = true ∧
    (load_data missingBatterTable).bind (fun t => getColumn t "batter") = none := by
  refine ⟨by decide, by decide⟩

/-- Claim C3, amended: `load_data` validates no schema beyond what its
own normalization touches — the load fails (any exception is caught and
`None` returned, with a generic message rather than a `SchemaError`)
exactly when `batting_team` or `bowling_team` is absent; every other
required column is unchecked at load time and its absence surfaces
lazily at query time. -/
theorem load_data_checks_only_team_columns (t : RawTable) :
    (load_data t).isSome ↔
      ("batting_team" ∈ t.cols ∧ "bowling_team" ∈ t.cols) := by
  unfold load_data
  split <;> simp_all

/-- Claim C4, counterexample: on a table whose only row has `match_id`
`"year"` — no parseable year in its leading digits — the season
derivation fails as a whole (`astype(int)` raises) instead of leaving
that row's season null. -/
theorem season_derivation_raises_on_unparseable :
    seasonOfMatchId "year" = none ∧ addSeason badSeasonExample = none := by
  refine ⟨by decide, by decide⟩

/-- Claim C4, amended: the season derivation parses the first four
characters of every row's `match_id` as an integer and raises — failing
the whole page — exactly when some row's prefix is unparseable; rows
with unparseable identifiers are never tolerated or filtered out, and no
row is ever given a null season. -/
theorem addSeason_none_iff_unparseable_row (df : List Delivery) :
    addSeason df = none ↔ ∃ d ∈ df, seasonOfMatchId d.match_id = none := by
  induction df with
  | nil => simp [addSeason]
  | cons d ds ih =>
    simp only [addSeason]
    cases hs : seasonOfMatchId d.match_id <;> cases ha : addSeason ds <;> simp_all

/-- Claim C5: for every table and batter, `analyze_batsman`'s reported
average equals the batter's total runs when the dismissal count on that
row set is zero, and otherwise equals total runs divided by
dismissals. -/
theorem batting_average_formula (df : List Delivery) (p : String) :
    (analyze_batsman df p).average =
      if ((batterRows df p).map (·.is_wicket)).sum = 0
      then (((((batterRows df p).map (·.batsman_runs)).sum : Int) : ℚ))
      else (((((batterRows df p).map (·.batsman_runs)).sum : Int) : ℚ)) /
        (((((batterRows df p).map (·.is_wicket)).sum : Nat) : ℚ)) := by
  simp only [analyze_batsman, batterRows]
  rcases Nat.eq_zero_or_pos ((df.filter (·.batter == p)).map (·.is_wicket)).sum with h | h
  · rw [h]; simp
  · rw [if_pos h, if_neg (by omega)]

/-- Claim C6: on an innings of thirteen balls all scoring four (52
runs), milestone detection reports the fifty reached on ball 13 with a
final score of 52; the same match's batter who totals only three runs
produces no record. -/
theorem milestone_thirteen_fours_scenario :
    ballsToThreshold (List.replicate 13 (4 : Int)) 50 = some 13 ∧
    detect_milestones milestoneExample 50 =
      [{ player := "B1", match_id := "m1", balls_to_threshold := 13,
         final_score := 52, opponent := "X" }] := by
  refine ⟨by decide, by decide⟩

/-- Claim C7, counterexample: `"Deccan Chargers"` is not a key of the
team mapping, so applying the mapping to it yields `"Deccan Chargers"`
itself — not a different canonical franchise name as the claim
states. -/
theorem deccan_chargers_unmapped :
    applyTeamMapping "Deccan Chargers" = "Deccan Chargers" := by
  decide

/-- Claim C7, amended: applying the team-name map to
`"Deccan Chargers"` leaves it unchanged (the mapping has no entry for
it), and applying the map again to that output also leaves it
unchanged. -/
theorem deccan_chargers_fixed_point :
    applyTeamMapping "Deccan Chargers" = "Deccan Chargers" ∧
    applyTeamMapping (applyTeamMapping "Deccan Chargers") =
      applyTeamMapping "Deccan Chargers" := by
  refine ⟨by decide, by decide⟩

/-- Claim C8: team-name canonicalization is idempotent — applying the
mapping twice to any name gives the same result as applying it once, and
hence renormalizing the table's team columns changes nothing. -/
theorem team_canonicalization_idempotent :
    (∀ s, applyTeamMapping (applyTeamMapping s) = applyTeamMapping s) ∧
    (∀ df : List Delivery, normalizeTeams (normalizeTeams df) = normalizeTeams df) := by
  refine ⟨applyTeamMapping_idem, ?_⟩
  intro df
  unfold normalizeTeams
  rw [List.map_map]
  apply List.map_congr_left
  intro d _
  simp [Function.comp, applyTeamMapping_idem]

/-- Claim C9: when a bowler's row set has zero wickets, the reported
bowling average is the infinity sentinel `⊤`, which compares strictly
greater than every finite rational average, so an ascending
best-average order places it last. -/
theorem bowling_average_infinite_when_no_wickets
    (df : List Delivery) (p : String) (q : ℚ)
    (h : (analyze_bowler df p).wickets = 0) :
    (analyze_bowler df p).average = ⊤ ∧
      (q : WithTop ℚ) < (analyze_bowler df p).average := by
  unfold analyze_bowler at *
  simp only at h
  simp [h]

/-- Claim C9, witness: bowler `Q` of `noWicketExample` has zero wickets,
and the theorem applies to it with the finite average 1000000. -/
theorem bowling_average_infinite_when_no_wickets_witness :
    (analyze_bowler noWicketExample "Q").wickets = 0 ∧
    ((analyze_bowler noWicketExample "Q").average = ⊤ ∧
      ((1000000 : ℚ) : WithTop ℚ) < (analyze_bowler noWicketExample "Q").average) :=
  ⟨by decide,
   bowling_average_infinite_when_no_wickets noWicketExample "Q" 1000000 (by decide)⟩

/-- Claim C10: for every table and batter, the reported century count is
at most the reported fifty count — both count per-match run sums against
a threshold, and the 100 threshold implies the 50 threshold. -/
theorem centuries_le_fifties (df : List Delivery) (p : String) :
    (analyze_batsman df p).centuries ≤ (analyze_batsman df p).fifties := by
  simp only [analyze_batsman]
  apply length_filter_imp
  intro a ha
  simp at *
  omega

end IPL
